import Mathlib

/-!
Verification of the scoring-and-mapping engine of a two-phase GRC vendor
risk assessment toolkit (phase1_assessor.py, phase2_mapper.py).

Phase 1 (`calculate_risk_score`, `generate_assessment_report`) scores a
sequence of answered questions and classifies the total.  Phase 2
(`analyze_framework_impact`) re-derives per-answer risk points from the raw
answers and groups risky answers by framework control.

Python built-ins used by the code (str.lower, str.strip, str.split, int())
are modelled below for ASCII strings; machine integers are Lean Int since
Python integers are unbounded.
-/

/-- Whitespace recognised by Python's str.strip and int() (ASCII part). -/
def pySpace (c : Char) : Bool :=
  c = ' ' || c = '\t' || c = '\n' || c = '\x0d' || c = '\x0b' || c = '\x0c'

/-- Model of Python str.lower for ASCII strings. -/
def pyLower (s : String) : String :=
  String.mk (s.toList.map Char.toLower)

/-- Model of Python str.strip (no argument): drop leading and trailing whitespace. -/
def pyStrip (s : String) : String :=
  String.mk (((s.toList.dropWhile pySpace).reverse.dropWhile pySpace).reverse)

/-- ASCII decimal digit test. -/
def isDigitChar (c : Char) : Bool :=
  '0' ≤ c && c ≤ '9'

/-- Value of a list of decimal digits (underscores already removed). -/
def digitsVal (l : List Char) : Nat :=
  l.foldl (fun acc c => acc * 10 + (c.toNat - '0'.toNat)) 0

/-- Tail of a digit run: digits, with single underscores allowed between digits. -/
def digitsTail : List Char → Bool
  | [] => true
  | '_' :: c :: rest => isDigitChar c && digitsTail rest
  | c :: rest => isDigitChar c && digitsTail rest

/-- A valid digit run for int(): nonempty, starts with a digit, underscores only
between digits. -/
def validDigits : List Char → Bool
  | [] => false
  | c :: rest => isDigitChar c && digitsTail rest

/-- Model of Python int(str) on ASCII strings: optional surrounding whitespace,
optional single sign, then a digit run (single underscores permitted between
digits).  Returns none where CPython raises ValueError. -/
def pyInt (s : String) : Option Int :=
  let cs := ((s.toList.dropWhile pySpace).reverse.dropWhile pySpace).reverse
  match cs with
  | [] => none
  | c :: rest =>
    let sign : Int := if c = '-' then -1 else 1
    let digits := if c = '-' || c = '+' then rest else c :: rest
    if validDigits digits then
      some (sign * (digitsVal (digits.filter (fun d => d ≠ '_')) : Int))
    else
      none

/-- Per-item scoring logic of phase 1 `calculate_risk_score`
(phase1_assessor.py, lines 104-127): lowercase the answer type; yes_no
scores the weight on "no" and 0 otherwise; score_1_5 scores (5 - score) *
weight, falling back to the full weight when int(answer) raises ValueError;
every other type (including text) contributes 0. -/
def phase1Points (answerType : String) (riskWeight : Int) (answer : String) : Int :=
  let t := pyLower answerType
  if t = "yes_no" then
    if answer = "no" then riskWeight else 0
  else if t = "score_1_5" then
    match pyInt answer with
    | some score => (5 - score) * riskWeight
    | none => riskWeight
  else
    0

/-- Per-item re-scoring logic of phase 2 `analyze_framework_impact`
(phase2_mapper.py, lines 49-58): same yes_no and score_1_5 formulas as
phase 1, except that when int(answer) raises ValueError the except branch
is `pass`, leaving points_earned at 0. -/
def phase2Points (answerType : String) (riskWeight : Int) (answer : String) : Int :=
  let t := pyLower answerType
  if t = "yes_no" then
    if answer = "no" then riskWeight else 0
  else if t = "score_1_5" then
    match pyInt answer with
    | some score => (5 - score) * riskWeight
    | none => 0
  else
    0

/-- An answered-question record as built by phase 1 `conduct_assessment`:
RiskWeight has already been converted to an integer by `load_questionnaire`. -/
structure ResultRow where
  questionId : String
  questionText : String
  answerType : String
  riskWeight : Int
  riskArea : String
  answerGiven : String
deriving DecidableEq

/-- Points contributed by one phase-1 record. -/
def pointsOf (r : ResultRow) : Int :=
  phase1Points r.answerType r.riskWeight r.answerGiven

/-- Model of Python dict assignment d[k] = v on an insertion-ordered
association list: update in place if the key exists, else append. -/
def dictInsert : List (String × Int) → String → Int → List (String × Int)
  | [], k, v => [(k, v)]
  | p :: rest, k, v => if p.1 = k then (k, v) :: rest else p :: dictInsert rest k v

/-- Lookup in the association-list model of a Python dict. -/
def alookup (d : List (String × Int)) (k : String) : Option Int :=
  (d.find? (fun p => p.1 = k)).map Prod.snd

/-- Loop body of `calculate_risk_score` (phase1_assessor.py, lines 101-130):
add this record's points to the running total and store them under its
QuestionID. -/
def scoreStep (acc : Int × List (String × Int)) (r : ResultRow) : Int × List (String × Int) :=
  let points := pointsOf r
  (acc.1 + points, dictInsert acc.2 r.questionId points)

/-- Model of phase 1 `calculate_risk_score` (phase1_assessor.py, lines
96-132): returns (total_risk_points, question_scores). -/
def calculate_risk_score (results : List ResultRow) : Int × List (String × Int) :=
  results.foldl scoreStep (0, [])

/-- Risk-level classification of `generate_assessment_report`
(phase1_assessor.py, lines 143-149). -/
def risk_level (total_score : Int) : String :=
  if total_score > 50 then "High"
  else if total_score > 20 then "Medium"
  else "Low"

/-- A row of the question template as phase 2 loads it with `load_csv_data`:
every field is a raw CSV string. -/
structure TemplateRow where
  questionId : String
  questionText : String
  answerType : String
  riskWeight : String
  riskArea : String
  relevantFrameworkControl : String
deriving DecidableEq

/-- A completed-assessment row as phase 2 loads it with `load_csv_data`:
every field, including RiskWeight, is a raw CSV string. -/
structure CsvRow where
  questionId : String
  questionText : String
  answerType : String
  riskWeight : String
  riskArea : String
  answerGiven : String
deriving DecidableEq

/-- The finding_details dict built by `analyze_framework_impact`
(phase2_mapper.py, lines 73-79). -/
structure Finding where
  questionId : String
  questionText : String
  answerGiven : String
  riskPoints : Int
  riskArea : String
deriving DecidableEq

/-- The framework_findings dict: control identifier to ordered finding list,
in insertion order. -/
abbrev FindingsMap := List (String × List Finding)

/-- Model of `framework_findings[control].append(finding)` together with the
create-if-absent branch (phase2_mapper.py, lines 81-84): the list for an
existing control grows at its end; a new control is appended to the dict. -/
def appendFinding : FindingsMap → String → Finding → FindingsMap
  | [], c, f => [(c, [f])]
  | p :: rest, c, f =>
    if p.1 = c then (p.1, p.2 ++ [f]) :: rest else p :: appendFinding rest c f

/-- Model of the dict comprehension question_lookup (phase2_mapper.py, line
30): keyed by QuestionID, a later template row overwrites an earlier one, so
lookup returns the last matching row. -/
def question_lookup (template_questions : List TemplateRow) (qid : String) : Option TemplateRow :=
  template_questions.reverse.find? (fun q => q.questionId = qid)

/-- Split a character list at every semicolon; the accumulator holds the
current piece reversed.  Models Python str.split(";"), which keeps empty
pieces and returns one (empty) piece for the empty string. -/
def splitSemiAux : List Char → List Char → List (List Char)
  | [], acc => [acc.reverse]
  | c :: rest, acc =>
    if c = ';' then acc.reverse :: splitSemiAux rest [] else splitSemiAux rest (c :: acc)

/-- Model of Python s.split(";"). -/
def pySplitSemi (s : String) : List String :=
  (splitSemiAux s.toList []).map String.mk

/-- Model of phase2_mapper.py line 71: split the control string on
semicolons, strip each part, and keep the nonempty parts. -/
def parseControls (s : String) : List String :=
  ((pySplitSemi s).map pyStrip).filter (fun c => c ≠ "")

/-- The RiskWeight coercion of phase2_mapper.py lines 43-46: int() the CSV
string, defaulting to 0 when it raises ValueError. -/
def csvWeight (r : CsvRow) : Int :=
  (pyInt r.riskWeight).getD 0

/-- Risk points phase 2 re-derives for one CSV row. -/
def rowPoints (r : CsvRow) : Int :=
  phase2Points r.answerType (csvWeight r) r.answerGiven

/-- The finding_details record built for a risky row from the row and its
template entry (phase2_mapper.py, lines 73-79). -/
def findingOf (r : CsvRow) (t : TemplateRow) : Finding :=
  { questionId := r.questionId
    questionText := t.questionText
    answerGiven := r.answerGiven
    riskPoints := rowPoints r
    riskArea := t.riskArea }

/-- One iteration of the main loop of `analyze_framework_impact`
(phase2_mapper.py, lines 38-85): re-score the row; if risky and present in
the template lookup, append a finding under every listed control. -/
def analyzeStep (template_questions : List TemplateRow) (fm : FindingsMap) (r : CsvRow) :
    FindingsMap :=
  if rowPoints r > 0 then
    match question_lookup template_questions r.questionId with
    | none => fm
    | some t =>
      let controlsStr := pyStrip t.relevantFrameworkControl
      if controlsStr = "" then fm
      else
        (parseControls controlsStr).foldl (fun m c => appendFinding m c (findingOf r t)) fm
  else fm

/-- Model of phase 2 `analyze_framework_impact` (phase2_mapper.py, lines
23-88): a falsy (empty) template or result list is rejected with the
distinguished error return None; otherwise the findings dict is built by a
single pass over the results. -/
def analyze_framework_impact (template_questions : List TemplateRow)
    (assessment_results : List CsvRow) : Option FindingsMap :=
  if template_questions.isEmpty || assessment_results.isEmpty then none
  else some (assessment_results.foldl (analyzeStep template_questions) [])

/-- Total number of findings stored across all controls of a findings map. -/
def countFindings (m : FindingsMap) : Nat :=
  (m.map (fun p => p.2.length)).sum

/-- Modelled from the spec: the reference fixed-threshold classification,
"totalScore > 50 → High; 20 < totalScore ≤ 50 → Medium; totalScore ≤ 20 →
Low", stated in the spec's own words for comparison with `risk_level`. -/
def specRiskLevel (t : Int) : String :=
  if t > 50 then "High" else if 20 < t ∧ t ≤ 50 then "Medium" else "Low"

/-- Every finding stored anywhere in a findings map has positive risk points. -/
def allPointsPos (m : FindingsMap) : Prop :=
  ∀ p ∈ m, ∀ g ∈ p.2, 0 < g.riskPoints

/-- Sample template row used to instantiate theorems: a yes_no question of
weight 10 mapped to two framework controls. -/
def sampleTemplate : TemplateRow :=
  ⟨"Q1", "Is data encrypted at rest?", "yes_no", "10", "Access Control", "ISO:A.9; NIST:AC-2"⟩

/-- Sample completed-assessment row answering `sampleTemplate` with "no". -/
def sampleRow : CsvRow :=
  ⟨"Q1", "Is data encrypted at rest?", "yes_no", "10", "Access Control", "no"⟩

/-- Sample completed-assessment row whose QuestionID is absent from the template. -/
def sampleOrphanRow : CsvRow :=
  ⟨"Q9", "Unknown question", "yes_no", "4", "Misc", "no"⟩

/-- The finding produced for `sampleRow` against `sampleTemplate`. -/
def sampleFinding : Finding :=
  ⟨"Q1", "Is data encrypted at rest?", "no", 10, "Access Control"⟩

theorem pyLower_yes_no : pyLower "yes_no" = "yes_no" := by decide

theorem pyLower_score_1_5 : pyLower "score_1_5" = "score_1_5" := by decide

example : pyInt "3" = some 3 := by decide
example : pyInt " -42 " = some (-42) := by decide
example : pyInt "1_0" = some 10 := by decide
example : pyInt "abc" = none := by decide
example : pyInt "" = none := by decide
example : pyInt "5.0" = none := by decide
example : pyInt "_1" = none := by decide
example : pyInt "1_" = none := by decide
example : phase1Points "Yes_No" 10 "no" = 10 := by decide
example : phase1Points "score_1_5" 3 "2" = 9 := by decide
example : phase1Points "score_1_5" 3 "oops" = 3 := by decide
example : phase2Points "score_1_5" 3 "oops" = 0 := by decide
example : phase1Points "text" 3 "whatever" = 0 := by decide

/-- C1: the claim says phase-1 `calculate_risk_score` and phase-2
`analyze_framework_impact` compute equal risk points for every answer,
including Score1to5 answers whose answerGiven does not parse as an integer.
The code violates this: on an unparseable Score1to5 answer with weight 5,
phase 1 scores the full weight while phase 2 scores 0, so the two
per-answer derivations disagree. -/
theorem c1_phase_points_disagree_on_unparseable :
    phase1Points "score_1_5" 5 "N/A" = 5 ∧
    phase2Points "score_1_5" 5 "N/A" = 0 ∧
    phase1Points "score_1_5" 5 "N/A" ≠ phase2Points "score_1_5" 5 "N/A" := by
  decide

/-- C2: the claim says an unparseable Score1to5 answer scores riskWeight in
both phases.  Phase 1 does (7 here), but phase 2's except-branch is `pass`,
leaving the points at 0, contradicting both the claim and phase 2's own
comment that its scoring needs to match phase-1 logic. -/
theorem c2_phase2_drops_worst_case_fallback :
    phase1Points "score_1_5" 7 "n/a" = 7 ∧
    phase2Points "score_1_5" 7 "n/a" = 0 := by
  decide

/-- C3 counterexample: a Score1to5 answer that parses to 7 with weight 1
yields (5 - 7) * 1 = -2 in both phases, so the computed riskPoints is not a
non-negative integer as the claim states. -/
theorem c3_counterexample_out_of_range_negative :
    phase1Points "score_1_5" 1 "7" = -2 ∧
    phase2Points "score_1_5" 1 "7" = -2 ∧
    phase1Points "score_1_5" 1 "7" < 0 := by
  decide

/-- C3 amended: for every answerType, non-negative riskWeight and answer
string whose integer parse (when it succeeds) is at most 5 — which covers
all unparseable answers and all in-range scores 1..5 — the riskPoints
computed by both the phase-1 and the phase-2 scoring logic are
non-negative. -/
theorem c3_points_nonneg_when_parse_le_five (answerType : String) (w : Int) (ans : String)
    (hw : 0 ≤ w) (hs : (pyInt ans).getD 0 ≤ 5) :
    0 ≤ phase1Points answerType w ans ∧ 0 ≤ phase2Points answerType w ans := by
  rcases hp : pyInt ans with _ | s
  · simp only [phase1Points, phase2Points, hp]
    constructor <;> split_ifs <;> first | exact hw | norm_num
  · rw [hp] at hs; simp only [Option.getD_some] at hs
    have h5 : 0 ≤ (5 : Int) - s := by omega
    simp only [phase1Points, phase2Points, hp]
    constructor <;> split_ifs <;> first | exact hw | exact mul_nonneg h5 hw | norm_num

/-- C3 witness: the amended theorem applied at answerType "score_1_5",
weight 3 and answer "2". -/
theorem c3_points_nonneg_witness :
    (0 : Int) ≤ 3 ∧ (pyInt "2").getD 0 ≤ 5 ∧
    (0 ≤ phase1Points "score_1_5" 3 "2" ∧ 0 ≤ phase2Points "score_1_5" 3 "2") :=
  ⟨by decide, by decide, c3_points_nonneg_when_parse_le_five "score_1_5" 3 "2" (by decide) (by decide)⟩

/-- C5: the phase-1 scoring step equals the fixed per-answer-type reference
rules: yes_no scores the weight on "no", 0 on "yes" and 0 on any other
answer; score_1_5 with parsed score s in [1, 5] scores (5 - s) * weight;
text and every unrecognized answerType score 0 for every answer. -/
theorem c5_scoring_rules_match_reference (w : Int) (ansS other txt tA : String) (s : Int)
    (hp : pyInt ansS = some s) (h1 : 1 ≤ s) (h5 : s ≤ 5)
    (ho : other ≠ "no")
    (ht : pyLower tA ≠ "yes_no") (ht2 : pyLower tA ≠ "score_1_5") :
    phase1Points "yes_no" w "no" = w ∧
    phase1Points "yes_no" w "yes" = 0 ∧
    phase1Points "yes_no" w other = 0 ∧
    phase1Points "score_1_5" w ansS = (5 - s) * w ∧
    phase1Points "text" w txt = 0 ∧
    phase1Points tA w txt = 0 := by
  refine ⟨?_, ?_, ?_, ?_, ?_, ?_⟩
  · simp [phase1Points, pyLower_yes_no]
  · simp [phase1Points, pyLower_yes_no]
  · simp [phase1Points, pyLower_yes_no, ho]
  · simp [phase1Points, pyLower_score_1_5, hp]
  · have g1 : pyLower "text" ≠ "yes_no" := by decide
    have g2 : pyLower "text" ≠ "score_1_5" := by decide
    simp [phase1Points, g1, g2]
  · simp [phase1Points, ht, ht2]

/-- C5 witness: the reference rules instantiated at weight 10, parsed score
2, off-script yes_no answer "maybe" and unrecognized type "Custom". -/
theorem c5_scoring_rules_witness :
    pyInt "2" = some 2 ∧ (1 : Int) ≤ 2 ∧ (2 : Int) ≤ 5 ∧
    "maybe" ≠ "no" ∧ pyLower "Custom" ≠ "yes_no" ∧ pyLower "Custom" ≠ "score_1_5" ∧
    (phase1Points "yes_no" 10 "no" = 10 ∧
     phase1Points "yes_no" 10 "yes" = 0 ∧
     phase1Points "yes_no" 10 "maybe" = 0 ∧
     phase1Points "score_1_5" 10 "2" = (5 - 2) * 10 ∧
     phase1Points "text" 10 "free text" = 0 ∧
     phase1Points "Custom" 10 "free text" = 0) :=
  ⟨by decide, by decide, by decide, by decide, by decide, by decide,
   c5_scoring_rules_match_reference 10 "2" "maybe" "free text" "Custom" 2
     (by decide) (by decide) (by decide) (by decide) (by decide) (by decide)⟩

/-- C8: the risk-level classification of `generate_assessment_report`
equals the fixed-threshold reference function (> 50 High, 20 < t ≤ 50
Medium, otherwise Low), with the claimed boundary values. -/
theorem c8_risk_level_thresholds :
    (∀ t : Int, risk_level t = specRiskLevel t) ∧
    risk_level 51 = "High" ∧ risk_level 50 = "Medium" ∧ risk_level 21 = "Medium" ∧
    risk_level 20 = "Low" ∧ risk_level 0 = "Low" := by
  refine ⟨fun t => ?_, by decide, by decide, by decide, by decide, by decide⟩
  unfold risk_level specRiskLevel
  split_ifs <;> first | rfl | omega

theorem countFindings_appendFinding (m : FindingsMap) (c : String) (f : Finding) :
    countFindings (appendFinding m c f) = countFindings m + 1 := by
  induction m with
  | nil => simp [appendFinding, countFindings]
  | cons p rest ih =>
    unfold appendFinding
    split_ifs with h
    · simp [countFindings]; omega
    · simp [countFindings] at ih ⊢; omega

theorem appendFinding_pos (m : FindingsMap) (c : String) (f : Finding)
    (hm : allPointsPos m) (hf : 0 < f.riskPoints) : allPointsPos (appendFinding m c f) := by
  induction m with
  | nil =>
    intro p hp g hg
    simp [appendFinding] at hp
    subst hp
    simp at hg
    subst hg
    exact hf
  | cons q rest ih =>
    have hq : ∀ g ∈ q.2, 0 < g.riskPoints := hm q (List.mem_cons_self q rest)
    have hrest : allPointsPos rest := fun p hp => hm p (List.mem_cons_of_mem q hp)
    intro p hp g hg
    unfold appendFinding at hp
    split_ifs at hp with h
    · rcases List.mem_cons.mp hp with rfl | hp'
      · rcases List.mem_append.mp hg with hg' | hg'
        · exact hq g hg'
        · simp at hg'
          subst hg'
          exact hf
      · exact hrest p hp' g hg
    · rcases List.mem_cons.mp hp with rfl | hp'
      · exact hq g hg
      · exact ih hrest p hp' g hg

theorem foldl_appendFinding_pos (f : Finding) (hf : 0 < f.riskPoints) :
    ∀ (cs : List String) (m : FindingsMap), allPointsPos m →
      allPointsPos (cs.foldl (fun m c => appendFinding m c f) m)
  | [], _, hm => hm
  | c :: rest, m, hm =>
    foldl_appendFinding_pos f hf rest (appendFinding m c f) (appendFinding_pos m c f hm hf)

theorem analyzeStep_pos (tq : List TemplateRow) (fm : FindingsMap) (r : CsvRow)
    (hm : allPointsPos fm) : allPointsPos (analyzeStep tq fm r) := by
  unfold analyzeStep
  split_ifs with hp
  · rcases hq : question_lookup tq r.questionId with _ | t
    · exact hm
    · dsimp only
      split_ifs with hcs
      · exact hm
      · exact foldl_appendFinding_pos (findingOf r t) hp _ fm hm
  · exact hm

theorem foldl_analyzeStep_pos (tq : List TemplateRow) :
    ∀ (ar : List CsvRow) (m : FindingsMap), allPointsPos m →
      allPointsPos (ar.foldl (analyzeStep tq) m)
  | [], _, hm => hm
  | r :: rest, m, hm =>
    foldl_analyzeStep_pos tq rest (analyzeStep tq m r) (analyzeStep_pos tq m r hm)

theorem alookup_cons (p : String × Int) (rest : List (String × Int)) (q : String) :
    alookup (p :: rest) q = if p.1 = q then some p.2 else alookup rest q := by
  unfold alookup
  by_cases h : p.1 = q
  · rw [List.find?_cons_of_pos _ (by simp [h]), if_pos h]
    rfl
  · rw [List.find?_cons_of_neg _ (by simp [h]), if_neg h]

theorem alookup_nil (q : String) : alookup [] q = none := rfl

theorem alookup_dictInsert_self (d : List (String × Int)) (k : String) (v : Int) :
    alookup (dictInsert d k v) k = some v := by
  induction d with
  | nil => simp [dictInsert, alookup_cons, alookup_nil]
  | cons p rest ih =>
    unfold dictInsert
    split_ifs with h
    · simp [alookup_cons]
    · rw [alookup_cons, if_neg h, ih]

theorem alookup_dictInsert_ne (d : List (String × Int)) (k q : String) (v : Int)
    (hkq : k ≠ q) : alookup (dictInsert d k v) q = alookup d q := by
  induction d with
  | nil => simp [dictInsert, alookup_cons, alookup_nil, hkq]
  | cons p rest ih =>
    unfold dictInsert
    split_ifs with h
    · rw [alookup_cons, alookup_cons, if_neg (h ▸ hkq), if_neg (h ▸ hkq)]
    · rw [alookup_cons, alookup_cons, ih]

theorem sum_foldl_scoreStep (rs : List ResultRow) :
    ∀ acc : Int × List (String × Int),
      (rs.foldl scoreStep acc).1 = acc.1 + (rs.map pointsOf).sum := by
  induction rs with
  | nil => intro acc; simp
  | cons r rest ih =>
    intro acc
    simp only [List.foldl_cons, List.map_cons, List.sum_cons, ih, scoreStep]
    ring

theorem alookup_foldl_scoreStep (q : String) :
    ∀ (rs : List ResultRow) (acc : Int × List (String × Int)),
      alookup (rs.foldl scoreStep acc).2 q =
        ((rs.reverse.find? (fun r => r.questionId = q)).map pointsOf).or (alookup acc.2 q) := by
  intro rs
  induction rs with
  | nil => intro acc; simp
  | cons r rest ih =>
    intro acc
    rw [List.foldl_cons, ih, List.reverse_cons, List.find?_append]
    rcases hrest : rest.reverse.find? (fun r => r.questionId = q) with _ | r'
    · rw [hrest]
      simp only [Option.none_or, Option.map_none']
      by_cases hr : r.questionId = q
      · rw [List.find?_cons_of_pos _ (by simp [hr])]
        show alookup (dictInsert acc.2 r.questionId (pointsOf r)) q = _
        rw [hr, alookup_dictInsert_self]
        rfl
      · rw [List.find?_cons_of_neg _ (by simp [hr])]
        show alookup (dictInsert acc.2 r.questionId (pointsOf r)) q = _
        rw [alookup_dictInsert_ne _ _ _ _ hr]
        rfl
    · rw [hrest]
      simp

/-- C4: `analyze_framework_impact` returns its distinguished error value
None exactly when the template list or the assessment-result list is absent
or empty (the falsy check on line 25 of phase2_mapper.py), so an invalid
call is never conflated with a legitimately empty findings map; for
non-empty inputs it always returns a findings map (the body is total, so it
never raises). -/
theorem c4_mapper_rejects_empty_inputs (tq : List TemplateRow) (ar : List CsvRow) :
    analyze_framework_impact tq ar = none ↔ tq = [] ∨ ar = [] := by
  constructor
  · intro h
    unfold analyze_framework_impact at h
    by_cases hc : tq.isEmpty || ar.isEmpty
    · rw [if_pos hc] at h
      simpa [List.isEmpty_iff] using hc
    · rw [if_neg hc] at h
      exact absurd h (by simp)
  · intro h
    unfold analyze_framework_impact
    have hc : tq.isEmpty || ar.isEmpty := by rcases h with h | h <;> simp [h]
    simp [hc]

/-- C6: phase-1 aggregation returns a total equal to the sum of the
per-answer risk points over the whole sequence; the per-question mapping
answers every lookup with the points of the last-processed record carrying
that questionId (none when the id never occurs); and the empty sequence
yields total 0 and an empty mapping. -/
theorem c6_total_is_sum_and_last_write_wins (rs : List ResultRow) (q : String) :
    (calculate_risk_score rs).1 = (rs.map pointsOf).sum ∧
    alookup (calculate_risk_score rs).2 q =
      (rs.reverse.find? (fun r => r.questionId = q)).map pointsOf ∧
    calculate_risk_score [] = (0, []) := by
  refine ⟨?_, ?_, rfl⟩
  · simpa [calculate_risk_score] using sum_foldl_scoreStep rs (0, [])
  · unfold calculate_risk_score
    rw [alookup_foldl_scoreStep]
    simp [alookup_nil]

/-- C7: every finding stored anywhere in a findings map returned by
`analyze_framework_impact` has riskPoints > 0, because only answers with
points_earned > 0 are ever mapped; in particular no control in the result
is associated only with zero-point answers. -/
theorem c7_mapped_findings_have_positive_points (tq : List TemplateRow) (ar : List CsvRow)
    (m : FindingsMap) (h : analyze_framework_impact tq ar = some m) :
    ∀ p ∈ m, ∀ g ∈ p.2, 0 < g.riskPoints := by
  have hm : m = ar.foldl (analyzeStep tq) [] := by
    unfold analyze_framework_impact at h
    split_ifs at h
    exact (Option.some_inj.mp h).symm
  subst hm
  exact foldl_analyzeStep_pos tq ar [] (by intro p hp; simp at hp)

/-- C7 witness: the positivity theorem applied to the map produced for the
sample question answered "no" with weight 10. -/
theorem c7_mapped_findings_witness :
    analyze_framework_impact [sampleTemplate] [sampleRow] =
      some [("ISO:A.9", [sampleFinding]), ("NIST:AC-2", [sampleFinding])] ∧
    ∀ p ∈ [("ISO:A.9", [sampleFinding]), ("NIST:AC-2", [sampleFinding])],
      ∀ g ∈ p.2, 0 < g.riskPoints :=
  ⟨by decide,
   c7_mapped_findings_have_positive_points [sampleTemplate] [sampleRow]
     [("ISO:A.9", [sampleFinding]), ("NIST:AC-2", [sampleFinding])] (by decide)⟩

/-- C9: for a risky answer (points > 0) whose template entry lists exactly
two semicolon-separated controls c1 and c2, one loop iteration of the
mapper equals two successive appends of one identical finding, first under
c1 and then under c2, and grows the total finding count by exactly 2; when
c1 = c2 the two appends land as separate entries under the same control. -/
theorem c9_two_controls_two_findings (tq : List TemplateRow) (fm : FindingsMap) (r : CsvRow)
    (t : TemplateRow) (c1 c2 : String)
    (hl : question_lookup tq r.questionId = some t)
    (hp : rowPoints r > 0)
    (hc : parseControls (pyStrip t.relevantFrameworkControl) = [c1, c2]) :
    analyzeStep tq fm r =
      appendFinding (appendFinding fm c1 (findingOf r t)) c2 (findingOf r t) ∧
    countFindings (analyzeStep tq fm r) = countFindings fm + 2 := by
  have hne : pyStrip t.relevantFrameworkControl ≠ "" := by
    intro h0
    rw [h0, show parseControls "" = [] from by decide] at hc
    simp at hc
  have hstep : analyzeStep tq fm r =
      appendFinding (appendFinding fm c1 (findingOf r t)) c2 (findingOf r t) := by
    unfold analyzeStep
    rw [if_pos hp, hl]
    dsimp only
    rw [if_neg hne, hc]
    rfl
  exact ⟨hstep, by rw [hstep, countFindings_appendFinding, countFindings_appendFinding]⟩

/-- C9 witness: the two-control theorem applied to the sample question,
whose control field is "ISO:A.9; NIST:AC-2", starting from an empty map. -/
theorem c9_two_controls_witness :
    question_lookup [sampleTemplate] sampleRow.questionId = some sampleTemplate ∧
    rowPoints sampleRow > 0 ∧
    parseControls (pyStrip sampleTemplate.relevantFrameworkControl) = ["ISO:A.9", "NIST:AC-2"] ∧
    (analyzeStep [sampleTemplate] [] sampleRow =
       appendFinding (appendFinding [] "ISO:A.9" (findingOf sampleRow sampleTemplate))
         "NIST:AC-2" (findingOf sampleRow sampleTemplate) ∧
     countFindings (analyzeStep [sampleTemplate] [] sampleRow) = countFindings [] + 2) :=
  ⟨by decide, by decide, by decide,
   c9_two_controls_two_findings [sampleTemplate] [] sampleRow sampleTemplate
     "ISO:A.9" "NIST:AC-2" (by decide) (by decide) (by decide)⟩

/-- C10: a scored answer whose QuestionID is absent from the template
lookup leaves the findings map exactly unchanged (one loop iteration is the
identity on it, with no possibility of raising), and a run over a sequence
containing such an answer equals the run over the sequence with that answer
removed, so every other answer is still processed. -/
theorem c10_missing_catalog_entry_skipped (tq : List TemplateRow) (pre post : List CsvRow)
    (r : CsvRow) (fm : FindingsMap)
    (h : question_lookup tq r.questionId = none) :
    (pre ++ r :: post).foldl (analyzeStep tq) fm = (pre ++ post).foldl (analyzeStep tq) fm ∧
    analyzeStep tq fm r = fm := by
  have hstep : ∀ m : FindingsMap, analyzeStep tq m r = m := by
    intro m
    unfold analyzeStep
    split_ifs with hp
    · rw [h]
    · rfl
  refine ⟨?_, hstep fm⟩
  rw [List.foldl_append, List.foldl_append, List.foldl_cons, hstep]

/-- C10 witness: the skip theorem applied to a row whose QuestionID "Q9" is
absent from the sample template, sandwiched between two mapped rows. -/
theorem c10_missing_catalog_witness :
    question_lookup [sampleTemplate] sampleOrphanRow.questionId = none ∧
    (([sampleRow] ++ sampleOrphanRow :: [sampleRow]).foldl (analyzeStep [sampleTemplate]) [] =
       ([sampleRow] ++ [sampleRow]).foldl (analyzeStep [sampleTemplate]) [] ∧
     analyzeStep [sampleTemplate] [] sampleOrphanRow = []) :=
  ⟨by decide,
   c10_missing_catalog_entry_skipped [sampleTemplate] [sampleRow] [sampleRow]
     sampleOrphanRow [] (by decide)⟩
